import Mathlib

set_option maxRecDepth 8000

/-!
Verification of the optik EVM concolic-execution core. This file shallowly
embeds the coverage/bifurcation recording subsystem (optik/coverage) and the
multi-contract EVM world state machine (optik/common/world.py), and proves
theorems settling the specification claims about them. External collaborators
(the maat symbolic engine primitives: values, constraints, snapshots, keccak)
are modelled as explicit executable Lean functions; everything that is code of
the repository is translated statement by statement from the source.
-/

/-- Association-list update mirroring Python dict assignment `d[k] = v`:
replaces the value at an existing key in place, appends a new binding
otherwise. -/
def updateEntry {κ α : Type} [DecidableEq κ] : List (κ × α) → κ → α → List (κ × α)
  | [], k, v => [(k, v)]
  | (k', v') :: rest, k, v =>
    if k' = k then (k, v) :: rest else (k', v') :: updateEntry rest k v

/-- Association-list lookup mirroring Python dict access `d[k]` /
`d.get(k)`. -/
def alookup {κ α : Type} [DecidableEq κ] : List (κ × α) → κ → Option α
  | [], _ => none
  | (k', v) :: rest, k => if k' = k then some v else alookup rest k

/-- Association-list deletion mirroring Python `del d[k]`. -/
def removeEntry {κ α : Type} [DecidableEq κ] : List (κ × α) → κ → List (κ × α)
  | [], _ => []
  | (k', v) :: rest, k => if k' = k then rest else (k', v) :: removeEntry rest k

/-- Model of a maat bit-vector expression value. The concrete claims never
need symbolic values, so a value is a bit size together with a concrete
unsigned value (what `as_uint` returns). `Cst` below builds one the way the
source does. -/
structure Value where
  size : Nat
  val : Nat
deriving DecidableEq

/-- Model of the maat constructor `Cst(size, v)`. -/
def Cst (size v : Nat) : Value := { size := size, val := v % 2 ^ size }

/-- Modular addition on values, modelling `a + b` on maat expressions as the
EVM evaluates them. -/
def Value.add (a b : Value) : Value :=
  { size := a.size, val := (a.val + b.val) % 2 ^ a.size }

/-- Modular subtraction on values, modelling `a - b` on maat expressions. -/
def Value.sub (a b : Value) : Value :=
  { size := a.size, val := (a.val + (2 ^ a.size - b.val % 2 ^ a.size)) % 2 ^ a.size }

/-- Model of a maat path constraint. `atom` carries an identifier and the set
of symbolic variable identifiers the constraint mentions; `inv` is logical
negation (`Constraint.invert()` in maat); `ULE` is the unsigned-less-or-equal
constraint the world adds on block-info increments. -/
inductive Constraint where
  | atom (id : Nat) (vars : List Nat)
  | inv (c : Constraint)
  | ULE (lhs : Value) (bound : Nat)
deriving DecidableEq

/-- Model of maat `Constraint.invert()`. -/
def Constraint.invert (c : Constraint) : Constraint := Constraint.inv c

/-- The symbolic variable identifiers a constraint mentions. -/
def Constraint.varIds : Constraint → List Nat
  | .atom _ vs => vs
  | .inv c => c.varIds
  | .ULE _ _ => []

/-- Whether two constraints share at least one symbolic variable. -/
def sharesVar (a b : Constraint) : Bool :=
  a.varIds.any (fun v => b.varIds.contains v)

/-- Modelled external maat primitive `path.get_related_constraints(c)`: the
accumulated path constraints restricted to those related to (sharing symbolic
variables with) the given constraint. -/
def get_related_constraints (path : List Constraint) (c : Constraint) : List Constraint :=
  path.filter (fun p => sharesVar p c)

/-- Python-level error outcomes of the embedded code. `worldException`,
`coverageException` are the exception classes the repository raises;
`nameError`, `attributeError`, `indexError`, `assertionError`, `unboundLocal`
model the interpreter errors the source can hit; `outOfFuel` is an artifact of
the bounded embedding of the unbounded run loop. -/
inductive PyErr where
  | worldException (msg : String)
  | coverageException (msg : String)
  | nameError (msg : String)
  | attributeError
  | indexError
  | assertionError
  | unboundLocal
  | outOfFuel
deriving DecidableEq

/-! ## Coverage subsystem (optik/coverage) -/

/-- The mode-specific extra key fields of a coverage state, one variant per
`CoverageState` subclass of optik/coverage (instruction, instruction +
transaction number, instruction + storage fingerprint, instruction +
transaction number + total transaction count, instruction + transaction
number + transaction-sequence selectors). -/
inductive CoverageExtra where
  | base
  | inst (inst_addr : Nat)
  | instTx (inst_addr tx_num : Nat)
  | instSg (inst_addr : Nat) (storage_use : List Nat)
  | instInc (inst_addr tx_num total_tx_cnt : Nat)
  | instTxSeq (inst_addr tx_num : Nat) (tx_seq : List Nat)
deriving DecidableEq

/-- Embedding of the frozen dataclass `CoverageState` hierarchy: contract
address, contract-initialized flag, plus mode-specific extra fields. Two
states are equal iff every field matches (dataclass structural equality). -/
structure CoverageState where
  contract : Nat
  contract_is_initialized : Bool
  extra : CoverageExtra
deriving DecidableEq

/-- Embedding of `Bifurcation` from optik/coverage/coverage.py. -/
structure Bifurcation where
  inst_addr : Nat
  taken_target : Nat
  alt_target : Nat
  path_constraints : List Constraint
  alt_target_constraint : Constraint
  input_uid : String
  alt_state : Option CoverageState
deriving DecidableEq

/-- Embedding of `Bifurcation.__eq__` (coverage.py): two bifurcations are
equivalent iff they branch to the same coverage state (the `isinstance` guard
always holds between two Bifurcation values). -/
def Bifurcation.beq (a b : Bifurcation) : Bool :=
  decide (a.alt_state = b.alt_state)

/-- An injective numeric code for the mode-specific extra fields, used by the
hash model. -/
def CoverageExtra.code : CoverageExtra → Nat
  | .base => 0
  | .inst a => 6 * (Nat.pair a 0) + 1
  | .instTx a t => 6 * (Nat.pair a t) + 2
  | .instSg a s => 6 * (Nat.pair a (s.foldr (fun x y => Nat.pair x y + 1) 0)) + 3
  | .instInc a t c => 6 * (Nat.pair a (Nat.pair t c)) + 4
  | .instTxSeq a t s => 6 * (Nat.pair a (Nat.pair t (s.foldr (fun x y => Nat.pair x y + 1) 0))) + 5

/-- Model of Python `hash` on a frozen `CoverageState` dataclass: a function
of exactly its fields. -/
def CoverageState.pyHash (s : CoverageState) : Nat :=
  Nat.pair s.contract (Nat.pair (cond s.contract_is_initialized 1 0) s.extra.code)

/-- Embedding of `Bifurcation.__hash__` (coverage.py): the hash is based only
on the alternate coverage state. -/
def Bifurcation.pyHash (b : Bifurcation) : Nat :=
  match b.alt_state with
  | none => 0
  | some s => s.pyHash + 1

/-- Model of the deduplication the solve loop performs with
`set(cov.bifurcations)` (optik/echidna/runner.py): keep the first
representative of every equivalence class of `Bifurcation.__eq__`. -/
def dedupBifurcations (l : List Bifurcation) : List Bifurcation :=
  l.foldl (fun acc b => if acc.any (fun a => Bifurcation.beq a b) then acc else acc ++ [b]) []

/-- Model of the branch information maat passes to branch-event callbacks
(`m.info.branch`): the optional taken flag, the branch target, the
fall-through address and the branch condition. Targets are the concrete
`as_uint` values the source extracts. -/
structure BranchInfo where
  taken : Option Bool
  target : Nat
  next : Nat
  cond : Constraint
deriving DecidableEq

/-- Model of the maat engine view consumed by `record_branch`: the address of
the branching instruction (`m.info.addr`), the branch info (`m.info.branch`)
and the accumulated path constraints (`m.path`). -/
structure CovEngine where
  addr : Nat
  branch : BranchInfo
  path : List Constraint
deriving DecidableEq

/-- Embedding of the `Coverage` monitor state (coverage.py): the covered map
(coverage state to visit count), the recorded bifurcations, and the uid of
the input currently tracked. -/
structure Coverage where
  covered : List (CoverageState × Nat)
  bifurcations : List Bifurcation
  current_input : String
deriving DecidableEq

/-- The alternate (not taken) target of a branch, as `record_branch`
computes it from the taken flag. -/
def branch_alt_target (b : BranchInfo) (tk : Bool) : Nat :=
  if tk then b.next else b.target

/-- The taken target of a branch, as `record_branch` computes it. -/
def branch_taken_target (b : BranchInfo) (tk : Bool) : Nat :=
  if tk then b.target else b.next

/-- The constraint that would force the alternate branch, as `record_branch`
computes it. -/
def branch_alt_constr (b : BranchInfo) (tk : Bool) : Constraint :=
  if tk then b.cond.invert else b.cond

/-- Embedding of `Coverage.record_branch` (coverage.py lines 88-122),
parametric over the mode-specific `get_state` capability the subclasses
supply. -/
def Coverage.record_branch (get_state : Nat → CovEngine → CoverageState)
    (cov : Coverage) (m : CovEngine) : Except PyErr Coverage :=
  match m.branch.taken with
  | none => .error (.coverageException "taken information missing from branch info")
  | some tk =>
    let alt_target := branch_alt_target m.branch tk
    let taken_target := branch_taken_target m.branch tk
    let alt_constr := branch_alt_constr m.branch tk
    let alt_state := get_state alt_target m
    if (alookup cov.covered alt_state).isNone then
      .ok { cov with bifurcations := cov.bifurcations ++
        [{ inst_addr := m.addr
         , taken_target := taken_target
         , alt_target := alt_target
         , path_constraints := get_related_constraints m.path alt_constr
         , alt_target_constraint := alt_constr
         , input_uid := cov.current_input
         , alt_state := some alt_state }] }
    else
      .ok cov

/-- Embedding of `PathTree` (path_coverage.py): a tree of execution paths,
each node carrying the number of times the path prefix was covered. -/
inductive PathTree where
  | node (covered : Nat) (nodes : List (Nat × PathTree))

/-- The visit counter of a path-tree node. -/
def PathTree.covered : PathTree → Nat
  | .node c _ => c

/-- The children of a path-tree node. -/
def PathTree.children : PathTree → List (Nat × PathTree)
  | .node _ ns => ns

/-- Embedding of `PathTree.add`: record one more occurrence of a path. -/
def PathTree.add (t : PathTree) : List Nat → PathTree
  | [] => .node (t.covered + 1) t.children
  | a :: rest =>
    let child := match alookup t.children a with
      | some c => c
      | none => .node 0 []
    .node (t.covered + 1) (updateEntry t.children a (child.add rest))

/-- Embedding of `PathTree.get`: number of times a given path was covered. -/
def PathTree.get (t : PathTree) : List Nat → Nat
  | [] => t.covered
  | a :: rest =>
    match alookup t.children a with
    | some c => c.get rest
    | none => 0

/-- Embedding of `all_subpaths` (path_coverage.py): all ordered
sub-combinations of a path, grouped by increasing length. -/
def all_subpaths (path : List Nat) : List (List Nat) :=
  ((List.range path.length).map (fun L => List.sublistsLen (L + 1) path)).flatten

/-- Embedding of `Bifurcation` from optik/coverage/bifurcation.py (the
variant `PathCoverage` records, named `Bifurcation` in its own module; renamed
here to avoid the clash with the coverage.py class). Its `ctx_info` holds the
alternate execution path. -/
structure PathBifurcation where
  inst_addr : Nat
  taken_target : Nat
  alt_target : Nat
  path_constraints : List Constraint
  alt_target_constraint : Constraint
  input_uid : Option String
  ctx_info : Option (List Nat)
deriving DecidableEq

/-- Embedding of `Bifurcation.__eq__` (bifurcation.py): equal alternate
target and equal contextual information; all other fields are ignored. -/
def PathBifurcation.beq (a b : PathBifurcation) : Bool :=
  if a.alt_target ≠ b.alt_target then false
  else decide (a.ctx_info = b.ctx_info)

/-- Embedding of the `PathCoverage` monitor state (path_coverage.py). -/
structure PathCoverage where
  strict : Bool
  covered : PathTree
  bifurcations : List PathBifurcation
  current_input : Option String
  current_path : List Nat

/-- Embedding of `PathCoverage.record_branch` (path_coverage.py lines
75-116): records the bifurcation when the alternate path is uncovered,
carrying the full unrestricted accumulated path-constraint list, then extends
the current path with the taken target and marks it (and, in relaxed mode,
all its ordered sub-combinations) covered. -/
def PathCoverage.record_branch (cov : PathCoverage) (m : CovEngine) :
    Except PyErr PathCoverage :=
  match m.branch.taken with
  | none => .error (.coverageException "taken information missing from branch info")
  | some tk =>
    let alt_target := branch_alt_target m.branch tk
    let taken_target := branch_taken_target m.branch tk
    let alt_constr := branch_alt_constr m.branch tk
    let alt_path := cov.current_path ++ [alt_target]
    let cov :=
      if cov.covered.get alt_path > 0 then cov
      else { cov with bifurcations := cov.bifurcations ++
        [{ inst_addr := m.addr
         , taken_target := taken_target
         , alt_target := alt_target
         , path_constraints := m.path
         , alt_target_constraint := alt_constr
         , input_uid := cov.current_input
         , ctx_info := some alt_path }] }
    let new_path := cov.current_path ++ [taken_target]
    let all_paths := if cov.strict then [new_path] else all_subpaths new_path
    .ok { cov with current_path := new_path
                 , covered := all_paths.foldl PathTree.add cov.covered }

/-! ## EVM world state machine (optik/common/world.py) -/

/-- Model of the maat transaction-type enumeration `TX`. -/
inductive TX where
  | CREATE
  | CREATE2
  | CALL
  | CALLCODE
  | DELEGATECALL
  | STATICCALL
deriving DecidableEq

/-- Model of the maat transaction-result enumeration `TX_RES`. -/
inductive TX_RES where
  | STOP
  | RETURN
  | REVERT
  | INVALID
deriving DecidableEq

/-- Model of the maat stop-reason enumeration `STOP`. -/
inductive STOP where
  | EXIT
  | NONE
  | HOOK
  | FATAL
deriving DecidableEq

/-- Model of a maat transaction result: the data returned by the frame. -/
structure CallResult where
  return_data : List Value
deriving DecidableEq

/-- Model of `result.return_data_size` (in bytes): the engine keeps it
consistent with the list of returned values. -/
def CallResult.return_data_size (r : CallResult) : Nat :=
  (r.return_data.map (fun v => v.size / 8)).sum

/-- Model of a maat `EVMTransaction` (used both for incoming transactions and
for the `outgoing_transaction` a frame emits). Address-valued and
length-valued fields carry the concrete `as_uint` values the source
extracts. -/
structure EVMTransaction where
  type : TX
  sender : Nat
  recipient : Nat
  value : Value
  data : List Value
  gas_price : Nat
  ret_offset : Nat
  ret_len : Nat
  result : Option CallResult
deriving DecidableEq

/-- Model of the maat per-engine `contract(engine)` object: the incoming
transaction, the EVM stack (top at the head of the list), the log of memory
buffer writes (offset and data of each `memory.write_buffer` call), the
contract balance, the pending outgoing transaction and the result of the last
message call. -/
structure EVMContract where
  transaction : Option EVMTransaction
  stack : List Value
  memory_writes : List (Nat × List Value)
  balance : Value
  outgoing_transaction : Option EVMTransaction
  result_from_last_call : Option CallResult
deriving DecidableEq

/-- Modelled behavior of one `engine.run()` call on a frame, supplied as data
because instruction semantics live in the external engine: the frame either
exits with a transaction result status (optionally leaving a new mutated
contract state), pauses with a pending outgoing message call (optionally with
a mutated state), or stops for another engine reason. -/
inductive RunOutcome where
  | exits (status : TX_RES) (newState : Option EVMContract)
  | call (newState : Option EVMContract) (out : EVMTransaction)
  | other (stop : STOP)
deriving DecidableEq

/-- Model of a maat engine as a World runtime sees it: its contract view, the
loaded runtime bytecode, the symbolic-variable context, the optional uid of
the runtime whose storage it shares (DELEGATECALL), and the scripted behavior
of the remaining `run()` calls (modelling the external instruction
semantics). -/
structure MaatEngine where
  contract : EVMContract
  bytecode : List Value
  vars : List (String × Nat)
  shared_storage : Option Nat
  script : List RunOutcome
deriving DecidableEq

/-- Model of the `info` object maat exposes after `run()`. -/
structure Info where
  stop : STOP
  exit_status : Option TX_RES
deriving DecidableEq

/-- Embedding of `AbstractTx` (world.py): an optional EVM transaction, the
block-number and block-timestamp increments, and the symbolic variable
binding context holding concrete values for concolic variables. -/
structure AbstractTx where
  tx : Option EVMTransaction
  block_num_inc : Value
  block_timestamp_inc : Value
  ctx : List (String × Nat)
deriving DecidableEq

/-- Model of `engine.vars.update_from(ctx)`: bind every variable of the
transaction context in the engine. -/
def update_from (vars ctx : List (String × Nat)) : List (String × Nat) :=
  ctx.foldl (fun acc p => updateEntry acc p.1 p.2) vars

/-- Embedding of `EVMRuntime` (world.py lines 50-73): an engine plus the
snapshot taken at construction (`init_state`). -/
structure EVMRuntime where
  engine : MaatEngine
  init_state : EVMContract
deriving DecidableEq

/-- Embedding of `EVMRuntime.__init__`: bind the transaction context and the
transaction into the engine, then take the snapshot. -/
def EVMRuntime.make (engine : MaatEngine) (tx : Option AbstractTx) : EVMRuntime :=
  let engine :=
    match tx with
    | none => engine
    | some t =>
      { engine with vars := update_from engine.vars t.ctx
                  , contract := { engine.contract with transaction := t.tx } }
  { engine := engine, init_state := engine.contract }

/-- Embedding of `EVMRuntime.run`: drive the engine to its next stopping
point by consuming the next scripted outcome, and return the stop info. If
the code ends in a REVERT the state is NOT automatically reverted. -/
def EVMRuntime.run (rt : EVMRuntime) : EVMRuntime × Info :=
  match rt.engine.script with
  | [] => (rt, { stop := STOP.FATAL, exit_status := none })
  | RunOutcome.exits st ns :: rest =>
    ({ rt with engine := { rt.engine with contract := ns.getD rt.engine.contract
                                        , script := rest } },
     { stop := STOP.EXIT, exit_status := some st })
  | RunOutcome.call ns out :: rest =>
    ({ rt with engine := { rt.engine with
        contract := { (ns.getD rt.engine.contract) with outgoing_transaction := some out }
      , script := rest } },
     { stop := STOP.NONE, exit_status := none })
  | RunOutcome.other s :: rest =>
    ({ rt with engine := { rt.engine with script := rest } },
     { stop := s, exit_status := none })

/-- Embedding of `EVMRuntime.revert`: restore the construction snapshot
without discarding it (`restore_snapshot(self.init_state, remove=False)`). -/
def EVMRuntime.revert (rt : EVMRuntime) : EVMRuntime :=
  { rt with engine := { rt.engine with contract := rt.init_state } }

/-- Embedding of `ContractRunner` (world.py lines 76-143): the stack of
runtimes (top at the head), the contract nonce, the deployment address and
deployer, the initialization flag, plus the scripted behavior of the
contract's code and the root contract state new runtimes start from
(modelling the root engine the source duplicates). -/
structure ContractRunner where
  runtime_stack : List EVMRuntime
  nonce : Nat
  address : Nat
  deployer : Nat
  initialized : Bool
  code_script : List RunOutcome
  base_contract : EVMContract
deriving DecidableEq

/-- Embedding of `ContractRunner.__init__`: empty runtime stack, nonce 1 as
per EIP-161, `initialized` iff the init bytecode is run at load time. -/
def ContractRunner.make (address deployer : Nat) (code_script : List RunOutcome)
    (run_init_bytecode : Bool) : ContractRunner :=
  { runtime_stack := []
  , nonce := 1
  , address := address
  , deployer := deployer
  , initialized := run_init_bytecode
  , code_script := code_script
  , base_contract :=
    { transaction := none, stack := [], memory_writes := []
    , balance := Cst 256 0, outgoing_transaction := none
    , result_from_last_call := none } }

/-- Embedding of `ContractRunner.push_runtime`: create a new runtime sharing
the contract's code (scripted behavior) and an independent frame state, bind
the transaction into it and push it on the stack. The optional
`share_storage_uid` is recorded for DELEGATECALL. -/
def ContractRunner.push_runtime (r : ContractRunner) (tx : Option AbstractTx)
    (share_storage_uid : Option Nat) : ContractRunner × EVMRuntime :=
  let fresh : EVMContract :=
    { r.base_contract with
        stack := []
      , memory_writes := []
      , outgoing_transaction := none
      , result_from_last_call := none }
  let engine : MaatEngine :=
    { contract := fresh
    , bytecode := []
    , vars := []
    , shared_storage := share_storage_uid
    , script := r.code_script }
  let rt := EVMRuntime.make engine tx
  ({ r with runtime_stack := rt :: r.runtime_stack }, rt)

/-- Embedding of `ContractRunner.pop_runtime`. -/
def ContractRunner.pop_runtime (r : ContractRunner) : ContractRunner :=
  { r with runtime_stack := r.runtime_stack.tail }

/-- Big-endian byte decomposition of a natural number on a fixed width,
modelling Python `int.to_bytes(n, "big")`. -/
def natToBytes (n v : Nat) : List Nat :=
  (List.range n).map (fun i => v / 256 ^ (n - 1 - i) % 256)

/-- Big-endian byte recomposition, modelling `int.from_bytes(bs, "big")`. -/
def bytesToNat (bs : List Nat) : Nat :=
  bs.foldl (fun acc b => acc * 256 + b) 0

/-- Modelled external primitive `rlp.encode([sender.to_bytes(20, "big"),
nonce])`: a deterministic byte encoding of the pair. -/
def rlp_encode_sender_nonce (sender nonce : Nat) : List Nat :=
  natToBytes 20 sender ++ natToBytes 8 nonce

/-- Modelled external primitive `sha3.keccak_256`: a deterministic 32-byte
digest of the input bytes (a pure stand-in mixing function; only purity and
determinism of the digest matter to the claims). -/
def keccak256 (input : List Nat) : List Nat :=
  natToBytes 32
    (input.foldl (fun acc b => (acc * 1099511628211 + b + 1) % 2 ^ 256)
      14695981039346656037)

/-- Embedding of `compute_new_contract_addr` (optik/common/util.py lines
232-239): the address generated by a CREATE originating from `sender` with
nonce `nonce` is the low 20 bytes of the keccak digest of the rlp encoding
of the pair. -/
def compute_new_contract_addr (sender nonce : Nat) : Nat :=
  bytesToNat ((keccak256 (rlp_encode_sender_nonce sender nonce)).drop 12)

/-- The monitor events the world can trigger (`_on_event`); monitors are
external observers, so the embedding logs the triggered events. -/
inductive MonitorEvent where
  | attached
  | transaction
  | new_runtime
deriving DecidableEq

/-- Embedding of `EVMWorld` (world.py lines 169-199): externally-owned
account balances, deployed contracts, the call stack (top at the head of the
list; the source keeps the top at the end), the transaction queue, the
current transaction, the static-call flag and its stack, the transaction
counter, the block info and gas price kept by the root engine, the root
engine's path constraints, and the log of monitor events triggered. -/
structure EVMWorld where
  eoa_list : List (Nat × Value)
  contracts : List (Nat × ContractRunner)
  call_stack : List Nat
  tx_queue : List AbstractTx
  current_tx : Option AbstractTx
  static_flag_stack : List Bool
  current_tx_num : Nat
  block_num : Nat
  block_timestamp : Nat
  gas_price : Nat
  static_flag : Bool
  root_path : List Constraint
  events : List MonitorEvent
deriving DecidableEq

/-- Embedding of `EVMWorld.is_contract`. -/
def EVMWorld.is_contract (w : EVMWorld) (address : Nat) : Bool :=
  (alookup w.contracts address).isSome

/-- Embedding of `EVMWorld.has_pending_transactions`. -/
def EVMWorld.has_pending_transactions (w : EVMWorld) : Bool :=
  !w.tx_queue.isEmpty

/-- Embedding of `EVMWorld._on_event`: trigger a monitor callback (logged,
since monitors are external observers). -/
def EVMWorld._on_event (w : EVMWorld) (e : MonitorEvent) : EVMWorld :=
  { w with events := w.events ++ [e] }

/-- Store an updated contract runner back into the world (the source mutates
the runner in place). -/
def EVMWorld.setContract (w : EVMWorld) (address : Nat) (r : ContractRunner) : EVMWorld :=
  { w with contracts := updateEntry w.contracts address r }

/-- The `contract(engine)` view of the current runtime of the contract
deployed at an address (`self.contracts[a].current_runtime.engine`), when
both exist. -/
def EVMWorld.topContract? (w : EVMWorld) (address : Nat) : Option EVMContract :=
  match alookup w.contracts address with
  | none => none
  | some r =>
    match r.runtime_stack with
    | [] => none
    | rt :: _ => some rt.engine.contract

/-- Apply an in-place mutation to the contract view of the current runtime of
the contract deployed at an address, when both exist. -/
def EVMWorld.modifyTopContract (w : EVMWorld) (address : Nat)
    (f : EVMContract → EVMContract) : Option EVMWorld :=
  match alookup w.contracts address with
  | none => none
  | some r =>
    match r.runtime_stack with
    | [] => none
    | rt :: rts =>
      some (w.setContract address
        { r with runtime_stack :=
            { rt with engine := { rt.engine with contract := f rt.engine.contract } } :: rts })

/-- Embedding of the `rt.revert()` call the run loop performs on a REVERT
exit: revert the current runtime of the contract at an address. -/
def EVMWorld.revertTop (w : EVMWorld) (address : Nat) : EVMWorld :=
  match alookup w.contracts address with
  | none => w
  | some r =>
    match r.runtime_stack with
    | [] => w
    | rt :: rts =>
      w.setContract address { r with runtime_stack := rt.revert :: rts }

/-- Embedding of the `self.current_contract.pop_runtime()` call of the run
loop. -/
def EVMWorld.popRuntimeAt (w : EVMWorld) (address : Nat) : EVMWorld :=
  match alookup w.contracts address with
  | none => w
  | some r => w.setContract address r.pop_runtime

/-- Embedding of `EVMWorld._update_block_info` (world.py lines 627-640):
advance the block number and timestamp by the transaction's declared
increments and constrain the increments to at most one week. -/
def EVMWorld._update_block_info (w : EVMWorld) (tx : AbstractTx) : EVMWorld :=
  { w with block_num := w.block_num + tx.block_num_inc.val
         , block_timestamp := w.block_timestamp + tx.block_timestamp_inc.val
         , root_path := w.root_path ++
             [Constraint.ULE tx.block_timestamp_inc 604800
             , Constraint.ULE tx.block_num_inc 60480] }

/-- Embedding of `EVMWorld._handle_CREATE_after` (world.py lines 496-527):
on success mark the new contract initialized and overwrite its code with the
returned runtime bytecode; on failure delete its contract runner. Then push
the new contract address (or zero on failure) onto the caller's stack if
there is a caller. -/
def EVMWorld._handle_CREATE_after (w : EVMWorld) (succeeded : Bool) :
    Except (PyErr × EVMWorld) EVMWorld :=
  match w.call_stack with
  | [] => .error (.worldException "No contract being currently executed", w)
  | addr :: callers =>
    match alookup w.contracts addr with
    | none => .error (.indexError, w)
    | some r =>
      let next : Except (PyErr × EVMWorld) (EVMWorld × Nat) :=
        if succeeded then
          match r.runtime_stack with
          | [] => .error (.indexError, w)
          | rt :: rts =>
            match rt.engine.contract.transaction with
            | none => .error (.attributeError, w)
            | some tr =>
              match tr.result with
              | none => .error (.attributeError, w)
              | some res =>
                let r' :=
                  { r with
                      initialized := true
                    , runtime_stack :=
                        { rt with engine := { rt.engine with bytecode := res.return_data } } :: rts }
                .ok (w.setContract addr r', r.address)
        else
          .ok ({ w with contracts := removeEntry w.contracts addr }, 0)
      match next with
      | .error e => .error e
      | .ok (w, create_result) =>
        match callers with
        | [] => .ok w
        | caller :: _ =>
          match w.modifyTopContract caller
              (fun c => { c with stack := Cst 256 create_result :: c.stack }) with
          | none => .error (.indexError, w)
          | some w => .ok w

/-- Embedding of the return-data truncation loop of `_handle_CALL_after`
(world.py lines 602-617): accumulate whole returned values while they fit in
the space the caller reserved; the partial-value case invokes `Extract`,
a name the module never imports, so reaching it raises a NameError. -/
def truncate_return_data (vals : List Value) (out_size : Nat) (size : Nat)
    (acc : List Value) : Except PyErr (List Value) :=
  match vals with
  | [] => .ok acc
  | v :: rest =>
    if size = out_size then .ok acc
    else if size + v.size / 8 > out_size then .error (.nameError "Extract")
    else truncate_return_data rest out_size (size + v.size / 8) (acc ++ [v])

/-- Embedding of `EVMWorld._handle_CALL_after` (world.py lines 581-625):
push the success status on the caller's stack, restore the static flag, and
if the call succeeded with return data, write
min(caller-requested length, actual returned length) bytes of return data
into the caller's memory at the caller-requested offset. -/
def EVMWorld._handle_CALL_after (w : EVMWorld) (caller : Nat) (succeeded : Bool) :
    Except (PyErr × EVMWorld) EVMWorld :=
  match w.modifyTopContract caller
      (fun c => { c with stack := Cst 256 (if succeeded then 1 else 0) :: c.stack }) with
  | none => .error (.indexError, w)
  | some w =>
    match w.static_flag_stack with
    | [] => .error (.indexError, w)
    | f :: fs =>
      let w := { w with static_flag := f, static_flag_stack := fs }
      match w.topContract? caller with
      | none => .error (.indexError, w)
      | some c =>
        match c.result_from_last_call with
        | none => .ok w
        | some res =>
          if succeeded then
            match c.outgoing_transaction with
            | none => .error (.attributeError, w)
            | some out =>
              let out_size := min out.ret_len res.return_data_size
              let rd? : Except (PyErr × EVMWorld) (List Value) :=
                if out_size < res.return_data_size then
                  match truncate_return_data res.return_data out_size 0 [] with
                  | .error e => .error (e, w)
                  | .ok l => .ok l
                else .ok res.return_data
              match rd? with
              | .error e => .error e
              | .ok return_data =>
                match w.modifyTopContract caller
                    (fun c2 => { c2 with
                        memory_writes := c2.memory_writes ++ [(out.ret_offset, return_data)] }) with
                | none => .error (.indexError, w)
                | some w => .ok w
          else .ok w

/-- Embedding of `EVMWorld._handle_CREATE` (world.py lines 452-494): compute
the new contract address from the deployer and the current contract's nonce
(CREATE2 addressing is unimplemented and raises), increment the nonce, deploy
the new contract without running its init bytecode, and push a fresh runtime
for the pending constructor execution on top of the call stack. -/
def EVMWorld._handle_CREATE (w : EVMWorld) : Except (PyErr × EVMWorld) EVMWorld :=
  match w.call_stack with
  | [] => .error (.worldException "No contract being currently executed", w)
  | addr :: _ =>
    match alookup w.contracts addr with
    | none => .error (.indexError, w)
    | some cc =>
      match w.topContract? addr with
      | none => .error (.indexError, w)
      | some c =>
        match c.outgoing_transaction with
        | none => .error (.attributeError, w)
        | some out =>
          let deployer := out.sender
          if out.type = TX.CREATE then
            let new_contract_addr := compute_new_contract_addr deployer cc.nonce
            let w := w.setContract addr { cc with nonce := cc.nonce + 1 }
            if (alookup w.contracts new_contract_addr).isSome then
              .error (.worldException "Could not deploy, address already in use", w)
            else if (alookup w.eoa_list new_contract_addr).isSome then
              .error (.worldException "Could not deploy, address already taken by EOA", w)
            else
              let runner := ContractRunner.make new_contract_addr deployer [] false
              let w := { w with contracts := updateEntry w.contracts new_contract_addr runner }
              match w.current_tx with
              | none => .error (.assertionError, w)
              | some curr =>
                let create_tx : AbstractTx :=
                  { tx := some out
                  , block_num_inc := curr.block_num_inc
                  , block_timestamp_inc := curr.block_timestamp_inc
                  , ctx := [] }
                let (runner, _rt) := runner.push_runtime (some create_tx) none
                let w := w.setContract new_contract_addr runner
                let w := w._on_event .new_runtime
                .ok { w with call_stack := new_contract_addr :: w.call_stack }
          else
            .error (.worldException "Transaction type not implemented", w)

/-- Embedding of `EVMWorld._handle_ETH_transfer` (world.py lines 529-547):
a message call transferring ETH to an externally owned account. The EOA is
created with balance zero if unseen, the value moves from the caller's
balance to the EOA balance, and 1 is pushed on the caller's stack. -/
def EVMWorld._handle_ETH_transfer (w : EVMWorld) : Except (PyErr × EVMWorld) EVMWorld :=
  match w.call_stack with
  | [] => .error (.worldException "No contract being currently executed", w)
  | addr :: _ =>
    match w.topContract? addr with
    | none => .error (.indexError, w)
    | some caller =>
      match caller.outgoing_transaction with
      | none => .error (.attributeError, w)
      | some out =>
        if (alookup w.contracts out.recipient).isSome then
          .error (.worldException "Should not be called for message call to smart contract", w)
        else
          let w :=
            if (alookup w.eoa_list out.recipient).isNone then
              { w with eoa_list := updateEntry w.eoa_list out.recipient (Cst 256 0) }
            else w
          let w :=
            match alookup w.eoa_list out.recipient with
            | some bal =>
              { w with eoa_list := updateEntry w.eoa_list out.recipient (bal.add out.value) }
            | none => w
          match w.modifyTopContract addr
              (fun c => { c with balance := c.balance.sub out.value
                               , stack := Cst 256 1 :: c.stack }) with
          | none => .error (.indexError, w)
          | some w => .ok w

/-- Embedding of `EVMWorld._handle_CALL` (world.py lines 549-579): a message
call into another deployed contract. A new runtime for the target is pushed
(sharing the caller's storage only for DELEGATECALL), the target goes on top
of the call stack, and the current static flag is saved. -/
def EVMWorld._handle_CALL (w : EVMWorld) : Except (PyErr × EVMWorld) EVMWorld :=
  match w.call_stack with
  | [] => .error (.worldException "No contract being currently executed", w)
  | addr :: _ =>
    match w.topContract? addr with
    | none => .error (.indexError, w)
    | some c =>
      match c.outgoing_transaction with
      | none => .error (.attributeError, w)
      | some out =>
        let share_storage_uid := if out.type = TX.DELEGATECALL then some addr else none
        match alookup w.contracts out.recipient with
        | none =>
          .error (.worldException "Contract emitted call but no contract deployed at this address", w)
        | some contract_runner =>
          match w.current_tx with
          | none => .error (.assertionError, w)
          | some curr =>
            let tx : AbstractTx :=
              { tx := some out
              , block_num_inc := curr.block_num_inc
              , block_timestamp_inc := curr.block_timestamp_inc
              , ctx := [] }
            let (contract_runner, _rt) := contract_runner.push_runtime (some tx) share_storage_uid
            let w := w.setContract out.recipient contract_runner
            let w := w._on_event .new_runtime
            let w := { w with call_stack := contract_runner.address :: w.call_stack }
            .ok { w with static_flag_stack := w.static_flag :: w.static_flag_stack }

/-- The outcome of one iteration of the run loop body: the dispatch saw a
placeholder transaction and continued, the iteration handled a stop reason
and the loop goes on, or an unhandled stop reason broke the loop. -/
inductive IterOut where
  | continued
  | looped (stop : STOP)
  | broke (stop : STOP)
deriving DecidableEq

/-- Embedding of the EXIT-stop handling of the run loop (world.py lines
363-425): propagate the frame's declared result to the caller, revert on a
REVERT exit status, finish a pending CREATE if the contract was still
initializing, pop the runtime (unless a failed CREATE already deleted the
whole runner), dispatch the message-call return in the caller, and pop the
call stack. -/
def EVMWorld.handle_exit (w : EVMWorld) (addr : Nat) (info : Info) :
    Except (PyErr × EVMWorld) (EVMWorld × IterOut) :=
  match info.exit_status with
  | none => .error (.attributeError, w)
  | some st =>
    let succeeded : Bool := decide (st = TX_RES.STOP) || decide (st = TX_RES.RETURN)
    let caller? := w.call_stack[1]?
    let step1 : Except (PyErr × EVMWorld) EVMWorld :=
      match caller? with
      | none => .ok w
      | some caller =>
        match w.topContract? addr with
        | none => .error (.indexError, w)
        | some cc =>
          match cc.transaction with
          | none => .error (.attributeError, w)
          | some tr =>
            match w.modifyTopContract caller
                (fun c => { c with result_from_last_call := tr.result }) with
            | none => .error (.indexError, w)
            | some w => .ok w
    match step1 with
    | .error e => .error e
    | .ok w =>
      let w := if st = TX_RES.REVERT then w.revertTop addr else w
      match alookup w.contracts addr with
      | none => .error (.indexError, w)
      | some cc =>
        let create_failed := (!cc.initialized) && !succeeded
        let step2 : Except (PyErr × EVMWorld) EVMWorld :=
          if cc.initialized then .ok w else w._handle_CREATE_after succeeded
        match step2 with
        | .error e => .error e
        | .ok w =>
          let w := if create_failed then w else w.popRuntimeAt addr
          let step3 : Except (PyErr × EVMWorld) EVMWorld :=
            match caller? with
            | none => .ok w
            | some caller =>
              match w.topContract? caller with
              | none => .error (.indexError, w)
              | some caller_contract =>
                match caller_contract.outgoing_transaction with
                | none => .error (.attributeError, w)
                | some out =>
                  let sub : Except (PyErr × EVMWorld) EVMWorld :=
                    if out.type = TX.CALL ∨ out.type = TX.CALLCODE ∨
                       out.type = TX.DELEGATECALL ∨ out.type = TX.STATICCALL then
                      w._handle_CALL_after caller succeeded
                    else .ok w
                  match sub with
                  | .error e => .error e
                  | .ok w =>
                    match w.modifyTopContract caller
                        (fun c => { c with outgoing_transaction := none }) with
                    | none => .error (.indexError, w)
                    | some w => .ok w
          match step3 with
          | .error e => .error e
          | .ok w => .ok ({ w with call_stack := w.call_stack.tail }, .looped STOP.EXIT)

/-- Embedding of the outgoing-call handling of the run loop (world.py lines
427-444): bump the transaction counter, then dispatch on the outgoing
transaction type; CREATE/CREATE2 deploy a new contract, CALL-family calls go
to an EOA transfer or a nested message call, and any other type raises. -/
def EVMWorld.handle_outgoing (w : EVMWorld) (addr : Nat) :
    Except (PyErr × EVMWorld) (EVMWorld × IterOut) :=
  match w.topContract? addr with
  | none => .error (.indexError, w)
  | some c =>
    match c.outgoing_transaction with
    | none => .error (.attributeError, w)
    | some out =>
      let w := { w with current_tx_num := w.current_tx_num + 1 }
      let res : Except (PyErr × EVMWorld) EVMWorld :=
        if out.type = TX.CREATE ∨ out.type = TX.CREATE2 then
          w._handle_CREATE
        else if out.type = TX.CALL ∨ out.type = TX.STATICCALL ∨
                out.type = TX.DELEGATECALL then
          if !w.is_contract out.recipient then
            w._handle_ETH_transfer
          else
            w._handle_CALL
        else
          .error (.worldException "Contract emitted an unsupported transaction type", w)
      match res with
      | .error e => .error e
      | .ok w => .ok (w, .looped STOP.NONE)

/-- Embedding of the run-and-dispatch part of a loop iteration (world.py
lines 358-448): run the current runtime to its next stopping point and
dispatch on the stop reason; any unhandled stop reason breaks the loop. -/
def EVMWorld.exec_step (w : EVMWorld) : Except (PyErr × EVMWorld) (EVMWorld × IterOut) :=
  match w.call_stack with
  | [] => .error (.worldException "No contract being currently executed", w)
  | addr :: _ =>
    match alookup w.contracts addr with
    | none => .error (.indexError, w)
    | some r =>
      match r.runtime_stack with
      | [] => .error (.indexError, w)
      | rt :: rts =>
        let (rt, info) := rt.run
        let w := w.setContract addr { r with runtime_stack := rt :: rts }
        if info.stop = STOP.EXIT then
          w.handle_exit addr info
        else if info.stop = STOP.NONE ∧ rt.engine.contract.outgoing_transaction.isSome then
          w.handle_outgoing addr
        else
          .ok (w, .broke info.stop)

/-- Embedding of one iteration of the run loop body (world.py lines
326-448): dispatch the next queued transaction when the call stack is empty
(skipping placeholder transactions with no actual call), then run the top
runtime and handle its stop. -/
def EVMWorld.run_iter (w : EVMWorld) : Except (PyErr × EVMWorld) (EVMWorld × IterOut) :=
  match w.call_stack with
  | _ :: _ => w.exec_step
  | [] =>
    match w.tx_queue with
    | [] => .error (.indexError, w)
    | curr :: rest =>
      let w := { w with tx_queue := rest
                      , current_tx := some curr
                      , current_tx_num := w.current_tx_num + 1 }
      let w := w._update_block_info curr
      match curr.tx with
      | none => .ok (w, .continued)
      | some t =>
        let w := { w with gas_price := t.gas_price }
        match alookup w.contracts t.recipient with
        | none =>
          .error (.worldException "Transaction recipient has no contract deployed there", w)
        | some runner =>
          let (runner, _rt) := runner.push_runtime (some curr) none
          let w := w.setContract t.recipient runner
          let w := w._on_event .new_runtime
          let w := { w with call_stack := t.recipient :: w.call_stack }
          let w := w._on_event .transaction
          w.exec_step

/-- Embedding of the while loop of `EVMWorld.run`, with explicit fuel
bounding the number of iterations of the unbounded source loop; `stop?` is
the last stop reason seen (unbound before the first runtime runs). -/
def EVMWorld.run_loop (w : EVMWorld) : Nat → Option STOP → EVMWorld × Except PyErr STOP
  | 0, _ => (w, .error .outOfFuel)
  | fuel + 1, stop? =>
    if w.has_pending_transactions || !w.call_stack.isEmpty then
      match w.run_iter with
      | .error (e, w') => (w', .error e)
      | .ok (w', .continued) => w'.run_loop fuel stop?
      | .ok (w', .looped s) => w'.run_loop fuel (some s)
      | .ok (w', .broke s) => (w', .ok s)
    else
      match stop? with
      | some s => (w, .ok s)
      | none => (w, .error .unboundLocal)

/-- Embedding of `EVMWorld.run` (world.py lines 318-450): raise when there is
nothing to execute, otherwise iterate the loop until the queue and the call
stack are both empty (returning the last stop reason) or an unhandled stop
reason breaks out. -/
def EVMWorld.run (w : EVMWorld) (fuel : Nat) : EVMWorld × Except PyErr STOP :=
  if !(w.has_pending_transactions || !w.call_stack.isEmpty) then
    (w, .error (.worldException "No more transactions to execute"))
  else
    w.run_loop fuel none

/-- A concrete bifurcation for the C2 witness. -/
def bifA : Bifurcation :=
  { inst_addr := 1, taken_target := 2, alt_target := 3
  , path_constraints := [Constraint.atom 0 [0]]
  , alt_target_constraint := Constraint.atom 9 [1]
  , input_uid := "input-a"
  , alt_state := some { contract := 7, contract_is_initialized := true
                      , extra := CoverageExtra.inst 3 } }

/-- A second concrete bifurcation for the C2 witness: the same alternate
state, every other field different. -/
def bifB : Bifurcation :=
  { inst_addr := 4, taken_target := 5, alt_target := 3
  , path_constraints := []
  , alt_target_constraint := Constraint.atom 8 [2]
  , input_uid := "input-b"
  , alt_state := some { contract := 7, contract_is_initialized := true
                      , extra := CoverageExtra.inst 3 } }

/-- Concrete engine view for the C1 counterexample and witnesses: the path
holds one constraint related to the branch condition and one constraint over
a disjoint variable. -/
def cexEngine : CovEngine :=
  { addr := 10
  , branch := { taken := some true, target := 20, next := 30
              , cond := Constraint.atom 1 [1] }
  , path := [Constraint.atom 1 [1], Constraint.atom 2 [2]] }

/-- A fresh strict path-coverage monitor for the C1 counterexample. -/
def cexPathCov : PathCoverage :=
  { strict := true, covered := PathTree.node 0 [], bifurcations := []
  , current_input := none, current_path := [] }

/-- A concrete mode-specific `get_state` (the instruction-coverage one at
contract 0) for the C1 witness. -/
def witGetState : Nat → CovEngine → CoverageState :=
  fun a _ => { contract := 0, contract_is_initialized := true
             , extra := CoverageExtra.inst a }

/-- A fresh base coverage monitor for the C1 witness. -/
def witCov : Coverage :=
  { covered := [], bifurcations := [], current_input := "seed-0" }

/-- A concrete engine whose single run outcome is a REVERT exit leaving a
mutated contract state, for the C5 witness. -/
def c5Mutated : EVMContract :=
  { transaction := none, stack := [Cst 256 42], memory_writes := [(0, [Cst 256 42])]
  , balance := Cst 256 7, outgoing_transaction := none, result_from_last_call := none }

/-- The engine the C5 witness constructs a runtime from. -/
def c5Engine : MaatEngine :=
  { contract :=
      { transaction := none, stack := [], memory_writes := []
      , balance := Cst 256 0, outgoing_transaction := none, result_from_last_call := none }
  , bytecode := [], vars := [], shared_storage := none
  , script := [RunOutcome.exits TX_RES.REVERT (some c5Mutated)] }

/-- A concrete idle world for the C9 witness. -/
def idleWorld : EVMWorld :=
  { eoa_list := [], contracts := [], call_stack := [], tx_queue := []
  , current_tx := none, static_flag_stack := [], current_tx_num := 0
  , block_num := 0, block_timestamp := 0, gas_price := 0, static_flag := false
  , root_path := [], events := [] }

/-- A concrete placeholder transaction for the C10 witness. -/
def noneTx : AbstractTx :=
  { tx := none, block_num_inc := Cst 256 2, block_timestamp_inc := Cst 256 20, ctx := [] }

/-- A concrete world with a queued placeholder transaction for the C10
witness. -/
def noneTxWorld : EVMWorld :=
  { eoa_list := [], contracts := [], call_stack := [], tx_queue := [noneTx]
  , current_tx := none, static_flag_stack := [], current_tx_num := 0
  , block_num := 100, block_timestamp := 1000, gas_price := 0, static_flag := false
  , root_path := [], events := [] }

/-- The returned call result for the C4 failing input: a single 256-bit
(32-byte) value. -/
def c4Result : CallResult := { return_data := [{ size := 256, val := 5 }] }

/-- The caller contract view for the C4 failing input: it requested 1 byte of
return data (`ret_len = 1`) while the callee returned 32 bytes. -/
def c4Caller : EVMContract :=
  { transaction := none, stack := [], memory_writes := [], balance := Cst 256 0
  , outgoing_transaction := some
      { type := TX.CALL, sender := 10, recipient := 20, value := Cst 256 0
      , data := [], gas_price := 0, ret_offset := 64, ret_len := 1, result := none }
  , result_from_last_call := some c4Result }

/-- The caller's current runtime for the C4 failing input. -/
def c4Runtime : EVMRuntime :=
  { engine := { contract := c4Caller, bytecode := [], vars := []
              , shared_storage := none, script := [] }
  , init_state := c4Caller }

/-- The caller's contract runner for the C4 failing input. -/
def c4Runner : ContractRunner :=
  { runtime_stack := [c4Runtime], nonce := 1, address := 10, deployer := 0
  , initialized := true, code_script := [], base_contract := c4Caller }

/-- The world for the C4 failing input. -/
def c4World : EVMWorld :=
  { eoa_list := [], contracts := [(10, c4Runner)], call_stack := [10]
  , tx_queue := [], current_tx := none, static_flag_stack := [false]
  , current_tx_num := 1, block_num := 0, block_timestamp := 0
  , gas_price := 0, static_flag := false, root_path := [], events := [] }

/-- The caller contract after the mutations `_handle_CALL_after` performs
before reaching the unbound name: the success flag pushed on the stack. -/
def c4CallerPushed : EVMContract := { c4Caller with stack := [Cst 256 1] }

/-- The world state at the moment `_handle_CALL_after` hits the unbound
`Extract` name: success flag pushed, static flag popped, no memory write. -/
def c4ErrWorld : EVMWorld :=
  { c4World with
      contracts := [(10, { c4Runner with runtime_stack :=
        [{ engine := { contract := c4CallerPushed, bytecode := [], vars := []
                     , shared_storage := none, script := [] }
         , init_state := c4Caller }] })]
    , static_flag_stack := []
    , static_flag := false }

/-- The outgoing CREATE2 transaction of the C7 witness. -/
def c7Out : EVMTransaction :=
  { type := TX.CREATE2, sender := 10, recipient := 0, value := Cst 256 0
  , data := [], gas_price := 0, ret_offset := 0, ret_len := 0, result := none }

/-- The contract view that emitted the CREATE2, for the C7 witness. -/
def c7Caller : EVMContract :=
  { transaction := none, stack := [], memory_writes := [], balance := Cst 256 0
  , outgoing_transaction := some c7Out, result_from_last_call := none }

/-- The world of the C7 witness. -/
def c7World : EVMWorld :=
  { eoa_list := [], contracts := [(10,
      { runtime_stack := [{ engine := { contract := c7Caller, bytecode := [], vars := []
                                      , shared_storage := none, script := [] }
                          , init_state := c7Caller }]
      , nonce := 1, address := 10, deployer := 0, initialized := true
      , code_script := [], base_contract := c7Caller })]
  , call_stack := [10], tx_queue := [], current_tx := none, static_flag_stack := []
  , current_tx_num := 1, block_num := 0, block_timestamp := 0, gas_price := 0
  , static_flag := false, root_path := [], events := [] }

/-- The outgoing CALL of the C6 witness, to an address with no contract. -/
def c6Out : EVMTransaction :=
  { type := TX.CALL, sender := 10, recipient := 99, value := Cst 256 5
  , data := [], gas_price := 0, ret_offset := 0, ret_len := 0, result := none }

/-- The caller contract view of the C6 witness. -/
def c6Caller : EVMContract :=
  { transaction := none, stack := [], memory_writes := [], balance := Cst 256 50
  , outgoing_transaction := some c6Out, result_from_last_call := none }

/-- The world of the C6 witness. -/
def c6World : EVMWorld :=
  { eoa_list := [], contracts := [(10,
      { runtime_stack := [{ engine := { contract := c6Caller, bytecode := [], vars := []
                                      , shared_storage := none, script := [] }
                          , init_state := c6Caller }]
      , nonce := 1, address := 10, deployer := 0, initialized := true
      , code_script := [], base_contract := c6Caller })]
  , call_stack := [10], tx_queue := [], current_tx := none, static_flag_stack := []
  , current_tx_num := 0, block_num := 0, block_timestamp := 0, gas_price := 0
  , static_flag := false, root_path := [], events := [] }

/-- The outgoing CREATE transaction of the C3 witness. -/
def c3Out : EVMTransaction :=
  { type := TX.CREATE, sender := 10, recipient := 0, value := Cst 256 0
  , data := [Cst 8 96], gas_price := 0, ret_offset := 0, ret_len := 0, result := none }

/-- The contract view that emitted the CREATE, for the C3 witness. -/
def c3Caller : EVMContract :=
  { transaction := none, stack := [], memory_writes := [], balance := Cst 256 0
  , outgoing_transaction := some c3Out, result_from_last_call := none }

/-- The current transaction of the C3 witness. -/
def c3Tx : AbstractTx :=
  { tx := none, block_num_inc := Cst 256 0, block_timestamp_inc := Cst 256 0, ctx := [] }

/-- The deploying contract runner of the C3 witness (nonce 1). -/
def c3Runner : ContractRunner :=
  { runtime_stack := [{ engine := { contract := c3Caller, bytecode := [], vars := []
                                  , shared_storage := none, script := [] }
                      , init_state := c3Caller }]
  , nonce := 1, address := 10, deployer := 0, initialized := true
  , code_script := [], base_contract := c3Caller }

/-- The world of the C3 witness. -/
def c3World : EVMWorld :=
  { eoa_list := [], contracts := [(10, c3Runner)], call_stack := [10], tx_queue := []
  , current_tx := some c3Tx, static_flag_stack := [], current_tx_num := 1
  , block_num := 0, block_timestamp := 0, gas_price := 0, static_flag := false
  , root_path := [], events := [] }

/-- A queued transaction that carries an actual call whose recipient is a
deployed, initialized contract whose code immediately exits when run (no
nested message call). -/
def txOk (contracts : List (Nat × ContractRunner)) (tx : AbstractTx) : Prop :=
  ∃ t, tx.tx = some t ∧ ∃ r, alookup contracts t.recipient = some r ∧
    r.initialized = true ∧
    ∃ st ns scr, r.code_script = RunOutcome.exits st ns :: scr

/-- A concrete world with nothing queued, for the C8 counterexample. -/
def emptyQueueWorld : EVMWorld :=
  { eoa_list := [], contracts := [], call_stack := [], tx_queue := []
  , current_tx := none, static_flag_stack := [], current_tx_num := 0
  , block_num := 0, block_timestamp := 0, gas_price := 0, static_flag := false
  , root_path := [], events := [] }

/-- The queued transaction of the C8 witness. -/
def c8Tx : AbstractTx :=
  { tx := some { type := TX.CALL, sender := 1, recipient := 50, value := Cst 256 0
               , data := [], gas_price := 3, ret_offset := 0, ret_len := 0, result := none }
  , block_num_inc := Cst 256 1, block_timestamp_inc := Cst 256 10, ctx := [] }

/-- The recipient contract of the C8 witness: its code exits immediately. -/
def c8Runner : ContractRunner :=
  { runtime_stack := [], nonce := 1, address := 50, deployer := 1, initialized := true
  , code_script := [RunOutcome.exits TX_RES.STOP none]
  , base_contract :=
      { transaction := none, stack := [], memory_writes := [], balance := Cst 256 0
      , outgoing_transaction := none, result_from_last_call := none } }

/-- The world of the C8 witness: one queued transaction to one deployed
contract. -/
def c8World : EVMWorld :=
  { eoa_list := [], contracts := [(50, c8Runner)], call_stack := [], tx_queue := [c8Tx]
  , current_tx := none, static_flag_stack := [], current_tx_num := 0
  , block_num := 0, block_timestamp := 0, gas_price := 0, static_flag := false
  , root_path := [], events := [] }

theorem alookup_updateEntry_self {κ α : Type} [DecidableEq κ]
    (l : List (κ × α)) (k : κ) (v : α) : alookup (updateEntry l k v) k = some v := by
  induction l with
  | nil => simp [updateEntry, alookup]
  | cons hd tl ih =>
    obtain ⟨k', v'⟩ := hd
    by_cases h : k' = k <;> simp [updateEntry, alookup, h, ih]

theorem alookup_updateEntry_ne {κ α : Type} [DecidableEq κ]
    (l : List (κ × α)) (k k' : κ) (v : α) (h : k' ≠ k) :
    alookup (updateEntry l k v) k' = alookup l k' := by
  induction l with
  | nil =>
    simp only [updateEntry, alookup]
    rw [if_neg (fun hh => h hh.symm)]
  | cons hd tl ih =>
    obtain ⟨k₀, v₀⟩ := hd
    by_cases h₀ : k₀ = k
    · subst h₀
      simp only [updateEntry, if_pos rfl, alookup]
      rw [if_neg (fun hh => h hh.symm), if_neg (fun hh => h hh.symm)]
    · simp only [updateEntry, if_neg h₀, alookup]
      by_cases h₁ : k₀ = k' <;> simp [h₁, ih]

theorem updateEntry_updateEntry {κ α : Type} [DecidableEq κ]
    (l : List (κ × α)) (k : κ) (v v' : α) :
    updateEntry (updateEntry l k v) k v' = updateEntry l k v' := by
  induction l with
  | nil => simp [updateEntry]
  | cons hd tl ih =>
    obtain ⟨k₀, v₀⟩ := hd
    by_cases h : k₀ = k <;> simp [updateEntry, h, ih]

theorem updateEntry_lookup_eq {κ α : Type} [DecidableEq κ]
    (l : List (κ × α)) (k : κ) (v : α) (h : alookup l k = some v) :
    updateEntry l k v = l := by
  induction l with
  | nil => simp [alookup] at h
  | cons hd tl ih =>
    obtain ⟨k₀, v₀⟩ := hd
    by_cases h₀ : k₀ = k
    · subst h₀
      simp [alookup] at h
      simp [updateEntry, h]
    · simp [alookup, h₀] at h
      simp [updateEntry, h₀, ih h]

theorem map_fst_updateEntry {κ α : Type} [DecidableEq κ]
    (l : List (κ × α)) (k : κ) (v : α) (h : (alookup l k).isSome) :
    (updateEntry l k v).map Prod.fst = l.map Prod.fst := by
  induction l with
  | nil => simp [alookup] at h
  | cons hd tl ih =>
    obtain ⟨k₀, v₀⟩ := hd
    by_cases h₀ : k₀ = k
    · subst h₀; simp [updateEntry]
    · simp [alookup, h₀] at h
      simp [updateEntry, h₀, ih h]

/-! ## Claim theorems -/

/-- C2: for any two Bifurcation values, equality holds if and only if their
alternate CoverageState fields are equal, regardless of all other fields, and
equal alternate states give equal hashes; hence set-based deduplication
treats two bifurcations with equal alternate CoverageState as the same
opportunity even when their path-constraint lists differ. For the
bifurcation.py variant, equality likewise ignores the instruction address,
the taken target, the path constraints and the input uid, depending only on
the alternate target and the contextual (alternate-state) information. -/
theorem bifurcation_equality_by_alt_state :
    (∀ a b : Bifurcation, Bifurcation.beq a b = true ↔ a.alt_state = b.alt_state)
    ∧ (∀ a b : Bifurcation, a.alt_state = b.alt_state →
        Bifurcation.pyHash a = Bifurcation.pyHash b)
    ∧ (∀ a b : Bifurcation, a.alt_state = b.alt_state → dedupBifurcations [a, b] = [a])
    ∧ (∀ a b : PathBifurcation, PathBifurcation.beq a b =
        (decide (a.alt_target = b.alt_target) && decide (a.ctx_info = b.ctx_info))) := by
  refine ⟨?_, ?_, ?_, ?_⟩
  · intro a b
    simp [Bifurcation.beq]
  · intro a b h
    simp [Bifurcation.pyHash, h]
  · intro a b h
    simp [dedupBifurcations, Bifurcation.beq, h]
  · intro a b
    by_cases h : a.alt_target = b.alt_target <;> simp [PathBifurcation.beq, h]

/-- Witness for C2 at two concrete bifurcations differing in every field but
the alternate coverage state. -/
theorem bifurcation_equality_by_alt_state_witness :
    Bifurcation.beq bifA bifB = true
    ∧ Bifurcation.pyHash bifA = Bifurcation.pyHash bifB
    ∧ dedupBifurcations [bifA, bifB] = [bifA]
    ∧ bifA.path_constraints ≠ bifB.path_constraints :=
  ⟨(bifurcation_equality_by_alt_state.1 bifA bifB).mpr (by decide)
  , bifurcation_equality_by_alt_state.2.1 bifA bifB (by decide)
  , bifurcation_equality_by_alt_state.2.2.1 bifA bifB (by decide)
  , by decide⟩

/-- Counterexample to C1 as stated: on a concrete branch event,
`PathCoverage.record_branch` appends a bifurcation whose `path_constraints`
is the full accumulated list, which contains a constraint sharing no symbolic
variable with the alternate-branch constraint, hence differs from the list
restricted to the related constraints. -/
theorem pathCoverage_full_constraints_cex :
    (PathCoverage.record_branch cexPathCov cexEngine).map
        (fun c => c.bifurcations.map (fun b => b.path_constraints))
      = .ok [[Constraint.atom 1 [1], Constraint.atom 2 [2]]]
    ∧ get_related_constraints cexEngine.path
        (Constraint.invert (Constraint.atom 1 [1])) = [Constraint.atom 1 [1]]
    ∧ sharesVar (Constraint.atom 2 [2]) (Constraint.invert (Constraint.atom 1 [1])) = false := by
  refine ⟨?_, ?_, ?_⟩ <;> rfl

/-- C1 (amended): on every branch event with the taken flag present,
`Coverage.record_branch` appends a new Bifurcation if and only if the
alternate CoverageState computed by the mode-specific `get_state` on the
alternate target is not already in the covered map, and the appended
bifurcation carries the accumulated path constraints restricted to those
related to the alternate-branch constraint; `PathCoverage.record_branch`
appends if and only if the alternate path is not already in the covered path
tree, and carries the full unrestricted accumulated path-constraint list. -/
theorem record_branch_characterization :
    (∀ (get_state : Nat → CovEngine → CoverageState) (cov : Coverage) (m : CovEngine)
        (tk : Bool), m.branch.taken = some tk →
      Coverage.record_branch get_state cov m = .ok { cov with bifurcations :=
        if (alookup cov.covered (get_state (branch_alt_target m.branch tk) m)).isNone then
          cov.bifurcations ++
            [{ inst_addr := m.addr
             , taken_target := branch_taken_target m.branch tk
             , alt_target := branch_alt_target m.branch tk
             , path_constraints := get_related_constraints m.path (branch_alt_constr m.branch tk)
             , alt_target_constraint := branch_alt_constr m.branch tk
             , input_uid := cov.current_input
             , alt_state := some (get_state (branch_alt_target m.branch tk) m) }]
        else cov.bifurcations })
    ∧ (∀ (cov : PathCoverage) (m : CovEngine) (tk : Bool), m.branch.taken = some tk →
      PathCoverage.record_branch cov m = .ok { cov with
        bifurcations :=
          if cov.covered.get (cov.current_path ++ [branch_alt_target m.branch tk]) > 0 then
            cov.bifurcations
          else cov.bifurcations ++
            [{ inst_addr := m.addr
             , taken_target := branch_taken_target m.branch tk
             , alt_target := branch_alt_target m.branch tk
             , path_constraints := m.path
             , alt_target_constraint := branch_alt_constr m.branch tk
             , input_uid := cov.current_input
             , ctx_info := some (cov.current_path ++ [branch_alt_target m.branch tk]) }]
        , current_path := cov.current_path ++ [branch_taken_target m.branch tk]
        , covered :=
            (if cov.strict then [cov.current_path ++ [branch_taken_target m.branch tk]]
             else all_subpaths (cov.current_path ++ [branch_taken_target m.branch tk])).foldl
              PathTree.add cov.covered }) := by
  constructor
  · intro gs cov m tk h
    unfold Coverage.record_branch
    rw [h]
    by_cases hc : (alookup cov.covered (gs (branch_alt_target m.branch tk) m)).isNone <;>
      simp [hc]
  · intro cov m tk h
    unfold PathCoverage.record_branch
    rw [h]
    by_cases hc :
        cov.covered.get (cov.current_path ++ [branch_alt_target m.branch tk]) > 0 <;>
      simp [hc]

/-- Witness for C1 (amended) at a concrete branch event, for both
record_branch implementations. -/
theorem record_branch_characterization_witness :
    Coverage.record_branch witGetState witCov cexEngine =
      .ok { witCov with bifurcations :=
        [{ inst_addr := 10, taken_target := 20, alt_target := 30
         , path_constraints := [Constraint.atom 1 [1]]
         , alt_target_constraint := Constraint.inv (Constraint.atom 1 [1])
         , input_uid := "seed-0"
         , alt_state := some { contract := 0, contract_is_initialized := true
                             , extra := CoverageExtra.inst 30 } }] }
    ∧ PathCoverage.record_branch cexPathCov cexEngine =
      .ok { cexPathCov with
        bifurcations :=
          [{ inst_addr := 10, taken_target := 20, alt_target := 30
           , path_constraints := [Constraint.atom 1 [1], Constraint.atom 2 [2]]
           , alt_target_constraint := Constraint.inv (Constraint.atom 1 [1])
           , input_uid := none
           , ctx_info := some [30] }]
        , current_path := [20]
        , covered := PathTree.node 1 [(20, PathTree.node 1 [])] } := by
  constructor
  · have h := record_branch_characterization.1 witGetState witCov cexEngine true rfl
    rw [h]
    rfl
  · have h := record_branch_characterization.2 cexPathCov cexEngine true rfl
    rw [h]
    rfl

/-- Running a runtime never touches its construction snapshot. -/
theorem EVMRuntime.run_init_state (rt : EVMRuntime) : rt.run.1.init_state = rt.init_state := by
  unfold EVMRuntime.run
  cases hscr : rt.engine.script with
  | nil => rfl
  | cons o rest => cases o <;> rfl

/-- Reverting restores exactly the construction snapshot. -/
theorem EVMRuntime.revert_contract (rt : EVMRuntime) :
    rt.revert.engine.contract = rt.init_state := rfl

/-- Reverting does not discard the snapshot. -/
theorem EVMRuntime.revert_init_state (rt : EVMRuntime) :
    rt.revert.init_state = rt.init_state := rfl

/-- C5: `run()` never restores the snapshot itself — an exit (REVERT
included) leaves the script-dictated mutated state and the exit info
readable — while `revert()` restores exactly the snapshot taken at Runtime
construction before any mutation, without discarding it, so that
snapshot-mutate-revert round-trips the engine state back to the snapshot and
`revert()` can be invoked again on the same Runtime. -/
theorem runtime_snapshot_revert_roundtrip
    (e : MaatEngine) (tx : Option AbstractTx) (rt' : EVMRuntime) (i : Info)
    (h : (EVMRuntime.make e tx).run = (rt', i)) :
    (EVMRuntime.make e tx).init_state = (EVMRuntime.make e tx).engine.contract
    ∧ rt'.init_state = (EVMRuntime.make e tx).init_state
    ∧ rt'.revert.engine.contract = (EVMRuntime.make e tx).init_state
    ∧ rt'.revert.init_state = (EVMRuntime.make e tx).init_state
    ∧ rt'.revert.revert = rt'.revert
    ∧ (∀ st c rest, e.script = RunOutcome.exits st (some c) :: rest →
        rt'.engine.contract = c ∧ i.stop = STOP.EXIT ∧ i.exit_status = some st) := by
  have hrt : (EVMRuntime.make e tx).run.1 = rt' := by rw [h]
  have hinit : rt'.init_state = (EVMRuntime.make e tx).init_state := by
    rw [← hrt, EVMRuntime.run_init_state]
  refine ⟨by cases tx <;> rfl, hinit, ?_, ?_, rfl, ?_⟩
  · rw [EVMRuntime.revert_contract, hinit]
  · rw [EVMRuntime.revert_init_state, hinit]
  · intro st c rest hscr
    have hms : (EVMRuntime.make e tx).engine.script = RunOutcome.exits st (some c) :: rest := by
      have hs : (EVMRuntime.make e tx).engine.script = e.script := by cases tx <;> rfl
      rw [hs, hscr]
    unfold EVMRuntime.run at h
    rw [hms] at h
    rw [Prod.mk.injEq] at h
    obtain ⟨h1, h2⟩ := h
    refine ⟨?_, ?_, ?_⟩
    · rw [← h1]
      rfl
    · rw [← h2]
    · rw [← h2]

/-- Witness for C5 at a concrete runtime whose frame ends in REVERT with a
mutated state. -/
theorem runtime_snapshot_revert_roundtrip_witness :
    (EVMRuntime.make c5Engine none).init_state = (EVMRuntime.make c5Engine none).engine.contract
    ∧ (EVMRuntime.make c5Engine none).run.1.init_state = (EVMRuntime.make c5Engine none).init_state
    ∧ (EVMRuntime.make c5Engine none).run.1.revert.engine.contract
        = (EVMRuntime.make c5Engine none).init_state
    ∧ (EVMRuntime.make c5Engine none).run.1.revert.init_state
        = (EVMRuntime.make c5Engine none).init_state
    ∧ (EVMRuntime.make c5Engine none).run.1.revert.revert
        = (EVMRuntime.make c5Engine none).run.1.revert
    ∧ ((EVMRuntime.make c5Engine none).run.1.engine.contract = c5Mutated
        ∧ (EVMRuntime.make c5Engine none).run.2.stop = STOP.EXIT
        ∧ (EVMRuntime.make c5Engine none).run.2.exit_status = some TX_RES.REVERT) := by
  have h := runtime_snapshot_revert_roundtrip c5Engine none
    (EVMRuntime.make c5Engine none).run.1 (EVMRuntime.make c5Engine none).run.2 rfl
  exact ⟨h.1, h.2.1, h.2.2.1, h.2.2.2.1, h.2.2.2.2.1,
    h.2.2.2.2.2 TX_RES.REVERT c5Mutated [] rfl⟩

/-- C9: calling `EVMWorld.run` when both the transaction queue and the call
stack are empty raises a WorldException immediately, leaving the world state
unchanged. -/
theorem run_on_idle_raises (w : EVMWorld) (fuel : Nat)
    (h1 : w.tx_queue = []) (h2 : w.call_stack = []) :
    w.run fuel = (w, .error (.worldException "No more transactions to execute")) := by
  unfold EVMWorld.run EVMWorld.has_pending_transactions
  rw [h1, h2]
  rfl

/-- Witness for C9 at a concrete idle world. -/
theorem run_on_idle_raises_witness :
    idleWorld.run 5 = (idleWorld, .error (.worldException "No more transactions to execute")) :=
  run_on_idle_raises idleWorld 5 rfl rfl

/-- C10: dispatching a queued transaction whose `tx` field is None performs
exactly one continue iteration: it bumps the transaction counter, applies the
block-number and block-timestamp increments and adds the two path constraints
bounding them, but pushes no runtime, leaves the call stack, the contracts
map, the EOA map and the monitor event log unchanged, and triggers no
on_transaction event. -/
theorem none_tx_dispatch_spec (w : EVMWorld) (curr : AbstractTx) (rest : List AbstractTx)
    (hcs : w.call_stack = []) (hq : w.tx_queue = curr :: rest) (hn : curr.tx = none) :
    w.run_iter = .ok ({ w with
        tx_queue := rest
      , current_tx := some curr
      , current_tx_num := w.current_tx_num + 1
      , block_num := w.block_num + curr.block_num_inc.val
      , block_timestamp := w.block_timestamp + curr.block_timestamp_inc.val
      , root_path := w.root_path ++
          [Constraint.ULE curr.block_timestamp_inc 604800
          , Constraint.ULE curr.block_num_inc 60480] },
      IterOut.continued) := by
  unfold EVMWorld.run_iter
  rw [hcs, hq]
  simp [EVMWorld._update_block_info, hn]

/-- Witness for C10 at a concrete world holding one placeholder
transaction. -/
theorem none_tx_dispatch_spec_witness :
    noneTxWorld.run_iter = .ok ({ noneTxWorld with
        tx_queue := []
      , current_tx := some noneTx
      , current_tx_num := noneTxWorld.current_tx_num + 1
      , block_num := noneTxWorld.block_num + noneTx.block_num_inc.val
      , block_timestamp := noneTxWorld.block_timestamp + noneTx.block_timestamp_inc.val
      , root_path := noneTxWorld.root_path ++
          [Constraint.ULE noneTx.block_timestamp_inc 604800
          , Constraint.ULE noneTx.block_num_inc 60480] },
      IterOut.continued) :=
  none_tx_dispatch_spec noneTxWorld noneTx [] rfl rfl rfl

/-- C4 (code bug): when the caller reserved less space than the callee
returned and the truncation boundary falls inside a returned value, the
return-data copy of `_handle_CALL_after` does not complete: the truncation
path evaluates the name `Extract`, which world.py never imports, so the
handler raises a NameError instead of copying
min(caller-requested length, actual returned length) bytes. -/
theorem handle_CALL_after_truncation_name_error :
    truncate_return_data c4Result.return_data 1 0 [] = .error (PyErr.nameError "Extract")
    ∧ c4World._handle_CALL_after 10 true = .error (PyErr.nameError "Extract", c4ErrWorld)
    ∧ min 1 c4Result.return_data_size = 1
    ∧ 1 < c4Result.return_data_size := by
  refine ⟨rfl, ?_, rfl, by decide⟩
  rfl

/-- Inversion of `topContract?`: it exposes the runner, the current runtime
and the runtime's contract view. -/
theorem topContract_inv (w : EVMWorld) (a : Nat) (c : EVMContract)
    (h : w.topContract? a = some c) :
    ∃ r rt rts, alookup w.contracts a = some r ∧ r.runtime_stack = rt :: rts ∧
      rt.engine.contract = c := by
  unfold EVMWorld.topContract? at h
  cases hal : alookup w.contracts a with
  | none =>
    simp only [hal] at h
    exact Option.noConfusion h
  | some r =>
    simp only [hal] at h
    cases hrs : r.runtime_stack with
    | nil =>
      simp only [hrs] at h
      exact Option.noConfusion h
    | cons rt rts =>
      simp only [hrs, Option.some.injEq] at h
      exact ⟨r, rt, rts, rfl, hrs, h⟩

/-- `topContract?` depends only on the contracts map. -/
theorem topContract_eq_of_contracts (w w' : EVMWorld) (a : Nat)
    (h : w'.contracts = w.contracts) : w'.topContract? a = w.topContract? a := by
  unfold EVMWorld.topContract?
  rw [h]

/-- C7: the run loop raises a WorldException for every pending outgoing
transaction whose type is CREATE2 (unimplemented addressing, raised inside
the CREATE handler) or CALLCODE (the only remaining type not among CREATE,
CALL, STATICCALL, DELEGATECALL), instead of executing the call; the world is
left with only the transaction counter bumped. -/
theorem unsupported_tx_type_raises (w : EVMWorld) (addr : Nat) (cs : List Nat)
    (c : EVMContract) (out : EVMTransaction)
    (hcs : w.call_stack = addr :: cs)
    (hc : w.topContract? addr = some c)
    (hout : c.outgoing_transaction = some out) :
    (out.type = TX.CREATE2 → w.handle_outgoing addr =
      .error (.worldException "Transaction type not implemented",
        { w with current_tx_num := w.current_tx_num + 1 }))
    ∧ (out.type = TX.CALLCODE → w.handle_outgoing addr =
      .error (.worldException "Contract emitted an unsupported transaction type",
        { w with current_tx_num := w.current_tx_num + 1 })) := by
  obtain ⟨r, rt, rts, hal, hrs, hcc⟩ := topContract_inv w addr c hc
  constructor
  · intro hty
    simp only [EVMWorld.handle_outgoing, EVMWorld._handle_CREATE, EVMWorld.topContract?,
      hc, hal, hrs, hcc, hcs, hout, hty]
    simp
  · intro hty
    simp only [EVMWorld.handle_outgoing, EVMWorld.topContract?,
      hc, hal, hrs, hcc, hcs, hout, hty]
    simp

/-- Witness for C7 at a concrete world whose frame emitted a CREATE2. -/
theorem unsupported_tx_type_raises_witness :
    c7World.handle_outgoing 10 =
      .error (.worldException "Transaction type not implemented",
        { c7World with current_tx_num := c7World.current_tx_num + 1 }) :=
  (unsupported_tx_type_raises c7World 10 [] c7Caller c7Out rfl rfl rfl).1 rfl

/-- C6: an outgoing CALL/STATICCALL/DELEGATECALL whose recipient is not a
deployed contract is handled by the run loop as a plain value transfer: the
recipient EOA is created with balance zero if unseen, the value is added to
the recipient's balance and subtracted from the caller's balance, the
constant 1 is pushed on the caller's stack, and no new runtime, call-stack
entry or monitor event is created. -/
theorem eth_transfer_to_eoa_spec (w : EVMWorld) (addr : Nat) (cs : List Nat)
    (c : EVMContract) (out : EVMTransaction)
    (hcs : w.call_stack = addr :: cs)
    (hc : w.topContract? addr = some c)
    (hout : c.outgoing_transaction = some out)
    (hty : out.type = TX.CALL ∨ out.type = TX.STATICCALL ∨ out.type = TX.DELEGATECALL)
    (hrec : alookup w.contracts out.recipient = none) :
    ∃ w', w.handle_outgoing addr = .ok (w', IterOut.looped STOP.NONE)
      ∧ alookup w'.eoa_list out.recipient =
          some (((alookup w.eoa_list out.recipient).getD (Cst 256 0)).add out.value)
      ∧ w'.topContract? addr =
          some { c with balance := c.balance.sub out.value, stack := Cst 256 1 :: c.stack }
      ∧ w'.call_stack = w.call_stack
      ∧ w'.tx_queue = w.tx_queue
      ∧ w'.contracts.map Prod.fst = w.contracts.map Prod.fst
      ∧ (∀ a, (alookup w'.contracts a).map (fun q => q.runtime_stack.length) =
          (alookup w.contracts a).map (fun q => q.runtime_stack.length))
      ∧ w'.events = w.events
      ∧ w'.current_tx_num = w.current_tx_num + 1 := by
  obtain ⟨r, rt, rts, hal, hrs, hcc⟩ := topContract_inv w addr c hc
  have hty1 : ¬(out.type = TX.CREATE ∨ out.type = TX.CREATE2) := by
    rcases hty with h | h | h <;> rw [h] <;> simp
  have heq : w.handle_outgoing addr = .ok ({ w with
      current_tx_num := w.current_tx_num + 1
    , eoa_list := updateEntry w.eoa_list out.recipient
        (((alookup w.eoa_list out.recipient).getD (Cst 256 0)).add out.value)
    , contracts := updateEntry w.contracts addr { r with runtime_stack :=
        { rt with engine := { rt.engine with contract :=
          { c with balance := c.balance.sub out.value
                 , stack := Cst 256 1 :: c.stack } } } :: rts } },
    IterOut.looped STOP.NONE) := by
    cases heoa : alookup w.eoa_list out.recipient with
    | none =>
      simp only [EVMWorld.handle_outgoing, EVMWorld._handle_ETH_transfer, EVMWorld.topContract?,
        EVMWorld.is_contract, EVMWorld.modifyTopContract, EVMWorld.setContract,
        hal, hrs, hcc, hcs, hout, hrec, heoa, hty1, hty,
        alookup_updateEntry_self, updateEntry_updateEntry]
      simp [heoa, alookup_updateEntry_self, updateEntry_updateEntry, hal, hrs, hcc, hout]
    | some bal =>
      simp only [EVMWorld.handle_outgoing, EVMWorld._handle_ETH_transfer, EVMWorld.topContract?,
        EVMWorld.is_contract, EVMWorld.modifyTopContract, EVMWorld.setContract,
        hal, hrs, hcc, hcs, hout, hrec, heoa, hty1, hty,
        alookup_updateEntry_self, updateEntry_updateEntry]
      simp [heoa, alookup_updateEntry_self, updateEntry_updateEntry, hal, hrs, hcc, hout]
  refine ⟨_, heq, ?_, ?_, rfl, rfl, ?_, ?_, rfl, rfl⟩
  · exact alookup_updateEntry_self _ _ _
  · simp [EVMWorld.topContract?, alookup_updateEntry_self]
  · exact map_fst_updateEntry _ _ _ (by rw [hal]; rfl)
  · intro a
    by_cases ha : a = addr
    · subst ha
      rw [alookup_updateEntry_self, hal]
      simp [hrs]
    · rw [alookup_updateEntry_ne _ _ _ _ ha]

/-- Witness for C6 at a concrete world whose frame emitted a CALL to a fresh
externally owned account. -/
theorem eth_transfer_to_eoa_spec_witness :
    ∃ w', c6World.handle_outgoing 10 = .ok (w', IterOut.looped STOP.NONE)
      ∧ alookup w'.eoa_list c6Out.recipient =
          some (((alookup c6World.eoa_list c6Out.recipient).getD (Cst 256 0)).add c6Out.value)
      ∧ w'.topContract? 10 =
          some { c6Caller with balance := c6Caller.balance.sub c6Out.value
                             , stack := Cst 256 1 :: c6Caller.stack }
      ∧ w'.call_stack = c6World.call_stack
      ∧ w'.tx_queue = c6World.tx_queue
      ∧ w'.contracts.map Prod.fst = c6World.contracts.map Prod.fst
      ∧ (∀ a, (alookup w'.contracts a).map (fun q => q.runtime_stack.length) =
          (alookup c6World.contracts a).map (fun q => q.runtime_stack.length))
      ∧ w'.events = c6World.events
      ∧ w'.current_tx_num = c6World.current_tx_num + 1 :=
  eth_transfer_to_eoa_spec c6World 10 [] c6Caller c6Out rfl rfl rfl (Or.inl rfl) rfl

/-- C3: a CREATE issued by a contract deploys the new contract at
`compute_new_contract_addr` applied to exactly the pair (deployer address,
the deploying contract's nonce before the increment), a pure deterministic
function of that pair; the nonce is then incremented by one, and every
freshly constructed contract runner starts with nonce 1 (EIP-161), so
repeating the same deployer/nonce pair in any world yields the same
address. -/
theorem handle_CREATE_addr_from_deployer_nonce
    (w : EVMWorld) (addr : Nat) (cs : List Nat) (cc : ContractRunner)
    (c : EVMContract) (out : EVMTransaction) (curr : AbstractTx)
    (hcs : w.call_stack = addr :: cs)
    (hcc : alookup w.contracts addr = some cc)
    (hc : w.topContract? addr = some c)
    (hout : c.outgoing_transaction = some out)
    (hty : out.type = TX.CREATE)
    (hfresh : alookup (updateEntry w.contracts addr { cc with nonce := cc.nonce + 1 })
        (compute_new_contract_addr out.sender cc.nonce) = none)
    (heoa : alookup w.eoa_list (compute_new_contract_addr out.sender cc.nonce) = none)
    (hcur : w.current_tx = some curr) :
    ∃ w', w._handle_CREATE = .ok w'
      ∧ w'.call_stack = compute_new_contract_addr out.sender cc.nonce :: w.call_stack
      ∧ (∃ r', alookup w'.contracts (compute_new_contract_addr out.sender cc.nonce) = some r'
          ∧ r'.nonce = 1 ∧ r'.initialized = false ∧ r'.deployer = out.sender
          ∧ r'.address = compute_new_contract_addr out.sender cc.nonce
          ∧ r'.runtime_stack.length = 1)
      ∧ alookup w'.contracts addr = some { cc with nonce := cc.nonce + 1 }
      ∧ (∀ a d scr ri, (ContractRunner.make a d scr ri).nonce = 1) := by
  obtain ⟨r, rt, rts, hal, hrs, hcon⟩ := topContract_inv w addr c hc
  have hrs' : cc.runtime_stack = rt :: rts := by
    rw [← Option.some.inj (hal.symm.trans hcc)]
    exact hrs
  have hne : addr ≠ compute_new_contract_addr out.sender cc.nonce := by
    intro he
    rw [← he, alookup_updateEntry_self] at hfresh
    exact Option.noConfusion hfresh
  rw [show ({ cc with nonce := cc.nonce + 1 } : ContractRunner)
      = { cc with runtime_stack := rt :: rts, nonce := cc.nonce + 1 } from by
    rw [← hrs']] at hfresh
  have heq : w._handle_CREATE = .ok ({ w with
      contracts := updateEntry
        (updateEntry w.contracts addr { cc with nonce := cc.nonce + 1 })
        (compute_new_contract_addr out.sender cc.nonce)
        (((ContractRunner.make (compute_new_contract_addr out.sender cc.nonce)
            out.sender [] false).push_runtime
          (some { tx := some out, block_num_inc := curr.block_num_inc
                , block_timestamp_inc := curr.block_timestamp_inc, ctx := [] }) none).1)
    , events := w.events ++ [MonitorEvent.new_runtime]
    , call_stack := compute_new_contract_addr out.sender cc.nonce :: w.call_stack }) := by
    simp only [EVMWorld._handle_CREATE, EVMWorld.topContract?, EVMWorld.setContract,
      EVMWorld._on_event, hcs, hcc, hrs', hcon, hout, hty, hcur, hfresh, heoa,
      updateEntry_updateEntry]
    simp [hrs']
  refine ⟨_, heq, rfl, ⟨_, alookup_updateEntry_self _ _ _, rfl, rfl, rfl, rfl, rfl⟩,
    ?_, fun a d scr ri => rfl⟩
  rw [alookup_updateEntry_ne _ _ _ _ hne, alookup_updateEntry_self]

/-- Witness for C3 at a concrete world whose frame emitted a CREATE. -/
theorem handle_CREATE_addr_from_deployer_nonce_witness :
    ∃ w', c3World._handle_CREATE = .ok w'
      ∧ w'.call_stack = compute_new_contract_addr c3Out.sender c3Runner.nonce :: c3World.call_stack
      ∧ (∃ r', alookup w'.contracts (compute_new_contract_addr c3Out.sender c3Runner.nonce) = some r'
          ∧ r'.nonce = 1 ∧ r'.initialized = false ∧ r'.deployer = c3Out.sender
          ∧ r'.address = compute_new_contract_addr c3Out.sender c3Runner.nonce
          ∧ r'.runtime_stack.length = 1)
      ∧ alookup w'.contracts 10 = some { c3Runner with nonce := c3Runner.nonce + 1 }
      ∧ (∀ a d scr ri, (ContractRunner.make a d scr ri).nonce = 1) :=
  handle_CREATE_addr_from_deployer_nonce c3World 10 [] c3Runner c3Caller c3Out c3Tx
    rfl rfl rfl rfl rfl (by decide) (by decide) rfl

/-- One run-loop iteration on an empty call stack with a queued transaction
whose recipient's code immediately exits: the transaction is dispatched, its
frame runs and exits, and the iteration ends back on an empty call stack with
the counter bumped once and the recipient's runner restored (its runtime
popped). -/
theorem run_iter_simple_tx
    (w : EVMWorld) (curr : AbstractTx) (rest : List AbstractTx) (t : EVMTransaction)
    (r : ContractRunner) (st : TX_RES) (ns : Option EVMContract) (scr : List RunOutcome)
    (hcs : w.call_stack = [])
    (hq : w.tx_queue = curr :: rest)
    (ht : curr.tx = some t)
    (hr : alookup w.contracts t.recipient = some r)
    (hinit : r.initialized = true)
    (hscript : r.code_script = RunOutcome.exits st ns :: scr) :
    w.run_iter.map (fun p => (p.1.call_stack, p.1.tx_queue, p.1.contracts,
        p.1.current_tx_num, p.2))
      = .ok (([] : List Nat), rest,
          updateEntry w.contracts t.recipient
            { runtime_stack := r.runtime_stack, nonce := r.nonce, address := r.address
            , deployer := r.deployer, initialized := true, code_script := r.code_script
            , base_contract := r.base_contract },
          w.current_tx_num + 1, IterOut.looped STOP.EXIT) := by
  by_cases hrev : st = TX_RES.REVERT
  · simp only [EVMWorld.run_iter, EVMWorld.exec_step, EVMWorld.handle_exit,
      EVMWorld._update_block_info, EVMWorld.setContract, EVMWorld._on_event,
      ContractRunner.push_runtime, EVMRuntime.make, EVMRuntime.run, EVMRuntime.revert,
      EVMWorld.revertTop, EVMWorld.popRuntimeAt, ContractRunner.pop_runtime,
      EVMWorld.topContract?,
      hcs, hq, ht, hr, hinit, hscript, hrev,
      alookup_updateEntry_self, updateEntry_updateEntry]
    simp only [List.getElem?_cons_succ, List.getElem?_nil, List.tail_cons,
      alookup_updateEntry_self, updateEntry_updateEntry, hinit]
    simp [alookup_updateEntry_self, updateEntry_updateEntry, hinit]
    rfl
  · simp only [EVMWorld.run_iter, EVMWorld.exec_step, EVMWorld.handle_exit,
      EVMWorld._update_block_info, EVMWorld.setContract, EVMWorld._on_event,
      ContractRunner.push_runtime, EVMRuntime.make, EVMRuntime.run, EVMRuntime.revert,
      EVMWorld.revertTop, EVMWorld.popRuntimeAt, ContractRunner.pop_runtime,
      EVMWorld.topContract?,
      hcs, hq, ht, hr, hinit, hscript, hrev,
      alookup_updateEntry_self, updateEntry_updateEntry]
    simp only [List.getElem?_cons_succ, List.getElem?_nil, List.tail_cons,
      alookup_updateEntry_self, updateEntry_updateEntry, hinit]
    simp [alookup_updateEntry_self, updateEntry_updateEntry, hinit, hrev]
    rfl

/-- One unrolling of the run loop. -/
theorem run_loop_succ (w : EVMWorld) (fuel : Nat) (stop? : Option STOP) :
    w.run_loop (fuel + 1) stop? =
      (if w.has_pending_transactions || !w.call_stack.isEmpty then
        match w.run_iter with
        | .error (e, w') => (w', .error e)
        | .ok (w', .continued) => w'.run_loop fuel stop?
        | .ok (w', .looped s) => w'.run_loop fuel (some s)
        | .ok (w', .broke s) => (w', .ok s)
      else
        match stop? with
        | some s => (w, .ok s)
        | none => (w, .error .unboundLocal)) := rfl

/-- Draining the run loop: starting from an empty call stack, a queue of
transactions none of which emits a nested message call is consumed one
iteration per transaction, ending idle with the counter advanced by the
queue length and the EXIT stop reason of the last frame. -/
theorem run_loop_drain
    (txs : List AbstractTx) (w : EVMWorld) (fuel : Nat) (stop? : Option STOP)
    (hcs : w.call_stack = []) (hq : w.tx_queue = txs)
    (hok : ∀ tx ∈ txs, txOk w.contracts tx)
    (hne : txs ≠ []) (hfuel : txs.length + 1 ≤ fuel) :
    ∃ w', w.run_loop fuel stop? = (w', .ok STOP.EXIT)
      ∧ w'.tx_queue = [] ∧ w'.call_stack = []
      ∧ w'.current_tx_num = w.current_tx_num + txs.length := by
  induction txs generalizing w fuel stop? with
  | nil => exact absurd rfl hne
  | cons curr rest ih =>
    obtain ⟨f, rfl⟩ : ∃ f, fuel = f + 1 := ⟨fuel - 1, by omega⟩
    obtain ⟨t, ht, r, hr, hinit, st, ns, scr, hscr⟩ := hok curr (by simp)
    have hmap := run_iter_simple_tx w curr rest t r st ns scr hcs hq ht hr hinit hscr
    cases hitr : w.run_iter with
    | error e =>
      rw [hitr] at hmap
      simp [Except.map] at hmap
    | ok p =>
      obtain ⟨w1, io⟩ := p
      rw [hitr] at hmap
      simp only [Except.map, Except.ok.injEq, Prod.mk.injEq] at hmap
      obtain ⟨hcs1, hq1, hc1, hn1, hio⟩ := hmap
      subst hio
      have hcond : (w.has_pending_transactions || !w.call_stack.isEmpty) = true := by
        simp [EVMWorld.has_pending_transactions, hq]
      have hstep : w.run_loop (f + 1) stop? = w1.run_loop f (some STOP.EXIT) := by
        rw [run_loop_succ, hcond]
        simp only [if_true]
        rw [hitr]
      have hok1 : ∀ tx ∈ rest, txOk w1.contracts tx := by
        intro tx htx
        obtain ⟨t', ht', r2, hr2, hinit2, st2, ns2, scr2, hscr2⟩ :=
          hok tx (List.mem_cons_of_mem _ htx)
        refine ⟨t', ht', ?_⟩
        rw [hc1]
        by_cases hk : t'.recipient = t.recipient
        · rw [hk, alookup_updateEntry_self]
          have hr2r : r2 = r := by
            rw [hk] at hr2
            exact Option.some.inj (hr2.symm.trans hr)
          subst hr2r
          exact ⟨_, rfl, rfl, st2, ns2, scr2, hscr2⟩
        · rw [alookup_updateEntry_ne _ _ _ _ hk]
          exact ⟨r2, hr2, hinit2, st2, ns2, scr2, hscr2⟩
      cases rest with
      | nil =>
        obtain ⟨f', rfl⟩ : ∃ f', f = f' + 1 := ⟨f - 1, by simp at hfuel; omega⟩
        refine ⟨w1, ?_, hq1, hcs1, by rw [hn1]; simp⟩
        rw [hstep, run_loop_succ]
        have hcond1 : (w1.has_pending_transactions || !w1.call_stack.isEmpty) = false := by
          simp [EVMWorld.has_pending_transactions, hq1, hcs1]
        rw [hcond1]
        simp only [Bool.false_eq_true, if_false]
      | cons t2 rest2 =>
        obtain ⟨w', hrun, hq', hcs', hn'⟩ :=
          ih w1 f (some STOP.EXIT) hcs1 hq1 hok1 (by simp) (by simp at hfuel ⊢; omega)
        refine ⟨w', ?_, hq', hcs', ?_⟩
        · rw [hstep, hrun]
        · rw [hn', hn1]
          simp
          omega

/-- Counterexample to C8 as stated: for the empty sequence (N = 0) of queued
transactions, `run` does not return with an empty queue and the terminal stop
reason of the last frame — it raises a WorldException instead. -/
theorem run_empty_queue_cex :
    emptyQueueWorld.run 3 =
      (emptyQueueWorld, .error (.worldException "No more transactions to execute")) := by
  rfl

/-- C8 (amended): for every nonempty sequence of N queued top-level
transactions none of which emits a nested message call, `run` performs
exactly N dispatch transitions (the transaction counter advances by N) and
returns with both the transaction queue and the call stack empty, with the
EXIT stop reason of the last frame. -/
theorem run_drains_queue_spec
    (txs : List AbstractTx) (w : EVMWorld) (fuel : Nat)
    (hcs : w.call_stack = []) (hq : w.tx_queue = txs)
    (hok : ∀ tx ∈ txs, txOk w.contracts tx)
    (hne : txs ≠ []) (hfuel : txs.length + 1 ≤ fuel) :
    ∃ w', w.run fuel = (w', .ok STOP.EXIT)
      ∧ w'.tx_queue = [] ∧ w'.call_stack = []
      ∧ w'.current_tx_num = w.current_tx_num + txs.length := by
  obtain ⟨w', hrun, hq', hcs', hn'⟩ := run_loop_drain txs w fuel none hcs hq hok hne hfuel
  refine ⟨w', ?_, hq', hcs', hn'⟩
  unfold EVMWorld.run
  have hcond : (w.has_pending_transactions || !w.call_stack.isEmpty) = true := by
    cases txs with
    | nil => exact absurd rfl hne
    | cons a b => simp [EVMWorld.has_pending_transactions, hq]
  rw [hcond]
  simpa using hrun

/-- Witness for C8 (amended) at a concrete world holding one queued
transaction whose frame exits immediately. -/
theorem run_drains_queue_spec_witness :
    ∃ w', c8World.run 2 = (w', .ok STOP.EXIT)
      ∧ w'.tx_queue = [] ∧ w'.call_stack = []
      ∧ w'.current_tx_num = c8World.current_tx_num + [c8Tx].length :=
  run_drains_queue_spec [c8Tx] c8World 2 rfl rfl
    (by
      intro tx htx
      rw [List.mem_singleton] at htx
      subst htx
      exact ⟨_, rfl, c8Runner, rfl, rfl, TX_RES.STOP, none, [], rfl⟩)
    (by simp) (by simp)
